import Mathlib

/-!
Verification of the saju-analysis lookup/bridging core (`src/app.py`).

Python dictionaries are modelled as association lists (`List (String × _)`)
whose iteration order is insertion order, matching CPython semantics.  JSON
objects whose fields the code reads as text are modelled as `PyObj`
(string-valued objects); the structural-pattern table, whose values the code
treats polymorphically (record or bare string), is modelled with the sum type
`GVal`.  Python integers are `Int`; Python `%` with a positive modulus agrees
with `Int.emod`.  Exceptions are modelled as `Option`/`Except` absence.
-/

/-- A JSON object with string-valued fields, as an insertion-ordered
association list (models the entries the code reads with `dict.get`). -/
abbrev PyObj := List (String × String)

/-- A value of the structural-pattern (`gyeok`) table: the source data mixes
structured records and bare descriptive strings, so consumers must treat the
value polymorphically. -/
inductive GVal where
  | obj : PyObj → GVal
  | str : String → GVal
  deriving DecidableEq

/-- The five reference tables held in `dbs` (keys `ilju`, `tojeong`,
`sipsin`, `gyeok`, `unseong` of the Python dict built by
`load_all_databases`, `src/app.py` lines 19-35). -/
structure Dbs where
  ilju : List (String × PyObj)
  tojeong : List (String × PyObj)
  sipsin : List (String × PyObj)
  gyeok : List (String × GVal)
  unseong : List (String × PyObj)
  deriving DecidableEq

/-- The storage the loader reads: for each of the five fixed relative file
paths, whether the file exists (`os.path.exists`) and, if so, its parsed
content (`json.load`). -/
structure FileSystem where
  ilju_present : Bool
  ilju_data : List (String × PyObj)
  tojeong_present : Bool
  tojeong_data : List (String × PyObj)
  sipsin_present : Bool
  sipsin_data : List (String × PyObj)
  gyeok_present : Bool
  gyeok_data : List (String × GVal)
  unseong_present : Bool
  unseong_data : List (String × PyObj)

/-- `load_all_databases` (`src/app.py` lines 20-35): for each of the five
tables, load the file's content when it exists, else substitute the empty
table (`dbs[k] = {}`). -/
def load_all_databases (fs : FileSystem) : Dbs :=
  { ilju := if fs.ilju_present then fs.ilju_data else []
  , tojeong := if fs.tojeong_present then fs.tojeong_data else []
  , sipsin := if fs.sipsin_present then fs.sipsin_data else []
  , gyeok := if fs.gyeok_present then fs.gyeok_data else []
  , unseong := if fs.unseong_present then fs.unseong_data else [] }

/-- The memo cell backing the reference-table cache: `none` before the first
load, `some` afterwards. -/
structure CacheState where
  cached : Option Dbs
  deriving DecidableEq

/-- Result of one call to the cached loader: the tables returned, the cache
cell afterwards, and whether storage was read during the call. -/
structure LoadResult where
  value : Dbs
  state : CacheState
  readStorage : Bool
  deriving DecidableEq

/-- Modelled from the spec: the `st.cache_data` decorator applied to
`load_all_databases` (`src/app.py` line 19) is external-library behavior; the
spec states it memoizes the result for the process lifetime, returning the
identical cached result on repeated calls without re-reading storage. -/
def load_all_databases_cached (fs : FileSystem) (s : CacheState) : LoadResult :=
  match s.cached with
  | some d => ⟨d, s, false⟩
  | none => ⟨load_all_databases fs, ⟨some (load_all_databases fs)⟩, true⟩

/-- The bridge triple `ILJU_BRIDGE` maps to (`src/app.py` lines 67-71). -/
structure Bridge where
  sipsin : String
  unseong : String
  gyeok : String
  deriving DecidableEq

/-- `ILJU_BRIDGE` (`src/app.py` lines 67-71): the three registered
day-pillar designations. -/
def ILJU_BRIDGE : List (String × Bridge) :=
  [ ("무술", ⟨"비견(比肩)", "묘(墓)", "건록격(建祿格)"⟩)
  , ("경신", ⟨"비견(比肩)", "건록(建祿)", "양인격(陽刃格)"⟩)
  , ("임자", ⟨"겁재(劫財)", "제왕(帝旺)", "양인격(陽刃格)"⟩) ]

/-- The default triple passed to `ILJU_BRIDGE.get` (`src/app.py` line 75). -/
def bridgeDefault : Bridge := ⟨"비견(比肩)", "묘(墓)", "건록격(建祿格)"⟩

/-- The bridge resolution performed at `src/app.py` line 75:
`ILJU_BRIDGE.get(ilju_name, default)`. -/
def resolveBridge (ilju_name : String) : Bridge :=
  (ILJU_BRIDGE.lookup ilju_name).getD bridgeDefault

/-- Python `v.get(k, dflt)` on a string-valued object. -/
def pyGetStr (v : PyObj) (k dflt : String) : String :=
  (v.lookup k).getD dflt

/-- Python `needle in hay` for strings: substring containment. -/
def pyInStr (needle hay : String) : Bool :=
  decide (needle.data <:+: hay.data)

/-- The result tuple of `get_json_info` (`src/app.py` line 79). -/
structure JsonInfo where
  ilju_basic : PyObj
  sipsin_info : PyObj
  unseong_info : PyObj
  gyeok_info : GVal
  bridge : Bridge
  deriving DecidableEq

/-- `get_json_info` (`src/app.py` lines 73-79): first-match substring scan
of the sexagenary base table, bridge resolution, and three keyed lookups
with their literal defaults. -/
def get_json_info (dbs : Dbs) (ilju_name : String) : JsonInfo :=
  let ilju_basic :=
    ((dbs.ilju.map Prod.snd).find? (fun v => pyInStr ilju_name (pyGetStr v "ilju" ""))).getD []
  let bridge := resolveBridge ilju_name
  let sipsin_info := (dbs.sipsin.lookup bridge.sipsin).getD []
  let unseong_info := (dbs.unseong.lookup bridge.unseong).getD []
  let gyeok_info := (dbs.gyeok.lookup bridge.gyeok).getD (GVal.str "자수성가형 명조")
  ⟨ilju_basic, sipsin_info, unseong_info, gyeok_info, bridge⟩

/-- The annual-fortune composite key `tid` (`src/app.py` line 151):
`f"{(y_val+m_val)%8+1}{(m_val+d_val)%6+1}{(d_val+y_val)%3+1}"`. -/
def tid (y m d : Int) : String :=
  toString ((y + m) % 8 + 1) ++ toString ((m + d) % 6 + 1) ++ toString ((d + y) % 3 + 1)

/-- The annual-fortune text lookup (`src/app.py` line 152):
`dbs.get('tojeong', {}).get(tid, {"full_content": ""})['full_content']`.
`none` models the `KeyError` raised when the selected entry has no
`full_content` field. -/
def tojeongText (db : List (String × PyObj)) (y m d : Int) : Option String :=
  ((db.lookup (tid y m d)).getD [("full_content", "")]).lookup "full_content"

/-- A Pillar Set: the dict returned by `get_saju_pillars`
(`src/app.py` line 88). -/
structure Pillars where
  year : String
  month : String
  day : String
  hour : String
  deriving DecidableEq

/-- Python `s.replace(c, '')` for a single-character pattern: remove every
occurrence of the character. -/
def removeChar (c : Char) (s : String) : String :=
  String.mk (s.data.filter (fun a => a != c))

/-- Python `s.split()` with no argument: split on whitespace runs,
discarding empty pieces. -/
def pySplit (s : String) : List String :=
  (s.split Char.isWhitespace).filter (fun t => t ≠ "")

/-- `get_saju_pillars` (`src/app.py` lines 81-89).  The delegated calendar
conversion (`KoreanLunarCalendar.setSolarDate`/`setLunarDate` +
`getGapJaString`) is external; its outcome is the `conv` argument: `.error`
when it raises, `.ok s` when it returns the gapja string `s`.  The indexing
`parts[0]`/`parts[1]`/`parts[2]` raises when fewer than 3 parts exist; the
surrounding `try`/`except` turns any such exception into `None`. -/
def get_saju_pillars (conv : Except Unit String) (h_str : String) : Option Pillars :=
  match conv with
  | .error _ => none
  | .ok full_gapja =>
    let parts := pySplit full_gapja
    if h : 3 ≤ parts.length then
      some { year := removeChar '년' (parts.get ⟨0, by omega⟩)
           , month := removeChar '월' (parts.get ⟨1, by omega⟩)
           , day := removeChar '일' (parts.get ⟨2, by omega⟩)
           , hour := h_str }
    else none

/-- Rendering of a string-valued object inside the prompt f-string
(abstraction of Python's `str()` of a dict). -/
def serializeObj (o : PyObj) : String :=
  String.intercalate ", " (o.map (fun p => p.1 ++ ": " ++ p.2))

/-- Rendering of a structural-pattern value inside the prompt f-string. -/
def serializeGVal : GVal → String
  | .obj o => serializeObj o
  | .str s => s

/-- Rendering of the pillar dict inside the prompt f-string. -/
def serializePillars (p : Pillars) : String :=
  "year: " ++ p.year ++ ", month: " ++ p.month ++ ", day: " ++ p.day ++ ", hour: " ++ p.hour

/-- The prompt template of `src/app.py` lines 159-164: a fixed instruction
block embedding the name, pillars, aggregate results, annual-fortune text
and questionnaire answers. -/
def assemblePrompt (u_name : String) (p : Pillars) (info : JsonInfo) (toj : String)
    (user_ans : List String) : String :=
  "당신은 데이터 명리학의 거장입니다. " ++ u_name ++
    " 님을 위한 정밀 분석 보고서를 작성하세요. 성함: " ++ u_name ++
    ", 사주: " ++ serializePillars p ++
    ", 일주: " ++ serializeObj info.ilju_basic ++
    ", 십신: " ++ serializeObj info.sipsin_info ++
    ", 운성: " ++ serializeObj info.unseong_info ++
    ", 격국: " ++ serializeGVal info.gyeok_info ++
    ", 올해운: " ++ toj ++
    ", 체질: " ++ String.intercalate ", " user_ans

/-- The report-generation branch body (`src/app.py` lines 150-164): run the
aggregation, the annual-fortune lookup, then assemble the prompt.  `none`
models the branch dying on the `KeyError` of `src/app.py` line 152. -/
def generateReportBranch (dbs : Dbs) (u_name : String) (p : Pillars) (y m d : Int)
    (user_ans : List String) : Option String :=
  let info := get_json_info dbs p.day
  match tojeongText dbs.tojeong y m d with
  | none => none
  | some toj => some (assemblePrompt u_name p info toj user_ans)

/-- Observable steps of the page script after the pillar computation
(`src/app.py` lines 139-191). -/
inductive Effect where
  | warning
  | tableLookup
  | annualLookup
  | notification
  | promptAssembly
  | modelCall
  | render
  | pdfExport
  | subscribeSuccess
  | subscribeError
  deriving DecidableEq

/-- The page script from `src/app.py` lines 139-191 as an effect trace:
everything is guarded by `if pillars:`; the report-generation button runs
the warning path when the name is empty and otherwise the lookups,
notification, prompt assembly, model call and render; the PDF section runs
when a previously generated report is in session state; the subscribe button
posts only when name and telegram handle are non-empty and the handle is not
the bare placeholder `"@"`. -/
def mainEffects (pillars : Option Pillars) (genPressed : Bool)
    (u_name u_telegram generated_report : String) (subPressed : Bool) : List Effect :=
  match pillars with
  | none => []
  | some _ =>
    (if genPressed then
       if u_name = "" then [Effect.warning]
       else [Effect.tableLookup, Effect.annualLookup, Effect.notification,
             Effect.promptAssembly, Effect.modelCall, Effect.render]
     else []) ++
    (if generated_report ≠ "" then [Effect.pdfExport] else []) ++
    (if subPressed then
       if u_name ≠ "" ∧ u_telegram ≠ "" ∧ u_telegram ≠ "@"
       then [Effect.notification, Effect.subscribeSuccess]
       else [Effect.subscribeError]
     else [])

/-- Python dict item assignment `d[k] = v` on an insertion-ordered dict:
update in place when the key exists, else append at the end. -/
def dictSet (d : List (String × String)) (k v : String) : List (String × String) :=
  if d.any (fun p => p.1 == k) then
    d.map (fun p => if p.1 == k then (p.1, v) else p)
  else d ++ [(k, v)]

/-- Result of one call to `sync_to_n8n`: the caller's payload dict after the
call (it is mutated in place), the payload the HTTP POST received, and
whether the function returned normally. -/
structure SyncResult where
  payload : List (String × String)
  posted : List (String × String)
  returnedNormally : Bool
  deriving DecidableEq

/-- `sync_to_n8n` (`src/app.py` lines 92-99): set `payload["action"]` and
`payload["timestamp"]`, POST the payload, and swallow any exception from the
request.  `now` stands for `datetime.now().strftime(...)` and `post` for the
outcome of `requests.post` on the payload it is given. -/
def sync_to_n8n (action_type now : String) (payload : List (String × String))
    (post : List (String × String) → Except Unit Unit) : SyncResult :=
  let p1 := dictSet payload "action" action_type
  let p2 := dictSet p1 "timestamp" now
  match post p2 with
  | .ok _ => ⟨p2, p2, true⟩
  | .error _ => ⟨p2, p2, true⟩

/-- Helper: a single decimal digit rendered by `toString` for `1 ≤ n ≤ 8`,
with the range facts needed for each of the three key positions. -/
theorem toString_small_int (n : Int) (h1 : 1 ≤ n) (h2 : n ≤ 8) :
    ∃ c : Char, toString n = String.mk [c] ∧ '1' ≤ c ∧ c ≤ '8' ∧
      (n ≤ 6 → c ≤ '6') ∧ (n ≤ 3 → c ≤ '3') := by
  interval_cases n
  · exact ⟨'1', by decide⟩
  · exact ⟨'2', by decide⟩
  · exact ⟨'3', by decide⟩
  · exact ⟨'4', by decide⟩
  · exact ⟨'5', by decide⟩
  · exact ⟨'6', by decide⟩
  · exact ⟨'7', by decide⟩
  · exact ⟨'8', by decide⟩

/-- Helper: `find?` returns the first match of a split list. -/
theorem find_first_of_split {α : Type} (p : α → Bool) (v : α) (post : List α) :
    ∀ pre : List α, (∀ w ∈ pre, p w = false) → p v = true →
      (pre ++ v :: post).find? p = some v := by
  intro pre
  induction pre with
  | nil => intro _ hv; simp [List.find?_cons, hv]
  | cons w ws ih =>
    intro hpre hv
    have hw := hpre w (List.mem_cons_self w ws)
    simp only [List.cons_append, List.find?_cons, hw]
    exact ih (fun x hx => hpre x (List.mem_cons_of_mem w hx)) hv

/-- Helper: the in-place update part of `dictSet` leaves other keys'
lookups unchanged. -/
theorem lookup_map_update_ne (t : List (String × String)) (k v k2 : String) (h : k2 ≠ k) :
    (t.map (fun p => if p.1 == k then (p.1, v) else p)).lookup k2 = t.lookup k2 := by
  induction t with
  | nil => rfl
  | cons p t ih =>
    obtain ⟨pk, pv⟩ := p
    rw [List.map_cons]
    by_cases hp : pk = k
    · have hpb : ((pk, pv).1 == k) = true := beq_iff_eq.mpr hp
      have hkb : (k2 == pk) = false := beq_eq_false_iff_ne.mpr (fun e => h (e.trans hp))
      rw [if_pos hpb]
      simp only [List.lookup, hkb]
      exact ih
    · have hpb : ¬ (((pk, pv).1 == k) = true) := by
        simp [beq_eq_false_iff_ne.mpr hp]
      rw [if_neg hpb]
      cases hkb : (k2 == pk) with
      | false =>
        simp only [List.lookup, hkb]
        exact ih
      | true => simp only [List.lookup, hkb]

/-- Helper: the append part of `dictSet` leaves other keys' lookups
unchanged. -/
theorem lookup_append_single_ne (l : List (String × String)) (k v k2 : String) (h : k2 ≠ k) :
    (l ++ [(k, v)]).lookup k2 = l.lookup k2 := by
  induction l with
  | nil => simp [List.lookup, beq_eq_false_iff_ne.mpr h]
  | cons p t ih =>
    obtain ⟨pk, pv⟩ := p
    cases hkb : (k2 == pk) <;> simp [List.lookup, hkb, ih]

/-- Helper: the in-place update part of `dictSet` sets the key when it
occurs in the dict. -/
theorem lookup_map_update_self (t : List (String × String)) (k v : String)
    (h : t.any (fun p => p.1 == k) = true) :
    (t.map (fun p => if p.1 == k then (p.1, v) else p)).lookup k = some v := by
  induction t with
  | nil => simp at h
  | cons p t ih =>
    obtain ⟨pk, pv⟩ := p
    rw [List.map_cons]
    by_cases hp : pk = k
    · have hpb : ((pk, pv).1 == k) = true := beq_iff_eq.mpr hp
      have hkb : (k == pk) = true := beq_iff_eq.mpr hp.symm
      rw [if_pos hpb]
      simp [List.lookup, hkb]
    · have hpb : ((pk, pv).1 == k) = false := beq_eq_false_iff_ne.mpr hp
      have hkb : (k == pk) = false := beq_eq_false_iff_ne.mpr (Ne.symm hp)
      have ht : t.any (fun p => p.1 == k) = true := by
        simpa [List.any_cons, hpb] using h
      rw [if_neg (by simp [hpb])]
      simp only [List.lookup, hkb]
      exact ih ht

/-- Helper: the append part of `dictSet` sets the key when it is absent. -/
theorem lookup_append_single_self (l : List (String × String)) (k v : String)
    (h : l.any (fun p => p.1 == k) = false) :
    (l ++ [(k, v)]).lookup k = some v := by
  induction l with
  | nil => simp [List.lookup]
  | cons p t ih =>
    obtain ⟨pk, pv⟩ := p
    by_cases hp : pk = k
    · exfalso
      simp [List.any_cons, beq_iff_eq.mpr hp] at h
    · have hpb : (pk == k) = false := beq_eq_false_iff_ne.mpr hp
      have hkb : (k == pk) = false := beq_eq_false_iff_ne.mpr (Ne.symm hp)
      have ht : t.any (fun p => p.1 == k) = false := by
        simpa [List.any_cons, hpb] using h
      simp only [List.cons_append, List.lookup, hkb]
      exact ih ht

/-- Helper: `dictSet` sets the written key. -/
theorem lookup_dictSet_self (d : List (String × String)) (k v : String) :
    (dictSet d k v).lookup k = some v := by
  rw [dictSet]
  split
  next h => exact lookup_map_update_self d k v h
  next h => exact lookup_append_single_self d k v (Bool.eq_false_iff.mpr h)

/-- Helper: `dictSet` leaves every other key's lookup unchanged. -/
theorem lookup_dictSet_ne (d : List (String × String)) (k v k2 : String) (h : k2 ≠ k) :
    (dictSet d k v).lookup k2 = d.lookup k2 := by
  rw [dictSet]
  split
  · exact lookup_map_update_ne d k v k2 h
  · exact lookup_append_single_ne d k v k2 h

/-- Claim C1: the bridge resolution is a total deterministic function that
returns the registered triple for each of "무술", "경신", "임자" and the
fixed default triple (peer / tomb / established-fortune pattern) for every
other designation; `get_json_info` uses exactly this resolution. -/
theorem bridge_total (s : String) (dbs : Dbs) :
    resolveBridge "무술" = ⟨"비견(比肩)", "묘(墓)", "건록격(建祿格)"⟩ ∧
    resolveBridge "경신" = ⟨"비견(比肩)", "건록(建祿)", "양인격(陽刃格)"⟩ ∧
    resolveBridge "임자" = ⟨"겁재(劫財)", "제왕(帝旺)", "양인격(陽刃格)"⟩ ∧
    bridgeDefault = ⟨"비견(比肩)", "묘(墓)", "건록격(建祿格)"⟩ ∧
    (get_json_info dbs s).bridge = resolveBridge s ∧
    (s ≠ "무술" → s ≠ "경신" → s ≠ "임자" → resolveBridge s = bridgeDefault) := by
  refine ⟨by decide, by decide, by decide, rfl, rfl, fun h1 h2 h3 => ?_⟩
  have e1 : (s == "무술") = false := beq_eq_false_iff_ne.mpr h1
  have e2 : (s == "경신") = false := beq_eq_false_iff_ne.mpr h2
  have e3 : (s == "임자") = false := beq_eq_false_iff_ne.mpr h3
  simp [resolveBridge, ILJU_BRIDGE, List.lookup, e1, e2, e3]

/-- Witness for C1: the unregistered designation "갑자" resolves to the
default triple. -/
theorem bridge_total_witness :
    resolveBridge "갑자" = bridgeDefault :=
  (bridge_total "갑자" ⟨[], [], [], [], []⟩).2.2.2.2.2
    (by decide) (by decide) (by decide)

/-- Claim C2: for every integer triple, the annual-fortune composite key is
the digit of `(y+m) % 8 + 1` followed by the digit of `(m+d) % 6 + 1`
followed by the digit of `(d+y) % 3 + 1`; it is always exactly 3 characters,
in "1".."8" / "1".."6" / "1".."3" by position. -/
theorem annual_key_shape (y m d : Int) :
    tid y m d =
      toString ((y + m) % 8 + 1) ++ toString ((m + d) % 6 + 1) ++ toString ((d + y) % 3 + 1) ∧
    ∃ c1 c2 c3 : Char, tid y m d = String.mk [c1, c2, c3] ∧
      '1' ≤ c1 ∧ c1 ≤ '8' ∧ '1' ≤ c2 ∧ c2 ≤ '6' ∧ '1' ≤ c3 ∧ c3 ≤ '3' := by
  refine ⟨rfl, ?_⟩
  have h8 : (0 : Int) < 8 := by norm_num
  have h6 : (0 : Int) < 6 := by norm_num
  have h3 : (0 : Int) < 3 := by norm_num
  have b1l : 0 ≤ (y + m) % 8 := Int.emod_nonneg _ (by norm_num)
  have b1u : (y + m) % 8 < 8 := Int.emod_lt_of_pos _ h8
  have b2l : 0 ≤ (m + d) % 6 := Int.emod_nonneg _ (by norm_num)
  have b2u : (m + d) % 6 < 6 := Int.emod_lt_of_pos _ h6
  have b3l : 0 ≤ (d + y) % 3 := Int.emod_nonneg _ (by norm_num)
  have b3u : (d + y) % 3 < 3 := Int.emod_lt_of_pos _ h3
  obtain ⟨c1, hc1, hc1l, hc1u, -, -⟩ :=
    toString_small_int ((y + m) % 8 + 1) (by omega) (by omega)
  obtain ⟨c2, hc2, hc2l, -, hc2u, -⟩ :=
    toString_small_int ((m + d) % 6 + 1) (by omega) (by omega)
  obtain ⟨c3, hc3, hc3l, -, -, hc3u⟩ :=
    toString_small_int ((d + y) % 3 + 1) (by omega) (by omega)
  refine ⟨c1, c2, c3, ?_, hc1l, hc1u, hc2l, hc2u (by omega), hc3l, hc3u (by omega)⟩
  rw [tid, hc1, hc2, hc3]
  rfl

/-- Claim C3: calling the cached loader twice returns the identical cached
result (same value, same cache cell) and the second call does not read
storage. -/
theorem loadAll_memoized (fs : FileSystem) (s : CacheState) :
    (load_all_databases_cached fs (load_all_databases_cached fs s).state).value
      = (load_all_databases_cached fs s).value ∧
    (load_all_databases_cached fs (load_all_databases_cached fs s).state).state
      = (load_all_databases_cached fs s).state ∧
    (load_all_databases_cached fs (load_all_databases_cached fs s).state).readStorage
      = false := by
  cases hs : s.cached <;> simp [load_all_databases_cached, hs]

/-- Claim C4: if the delegated conversion raises, or its output parses into
fewer than three parts, `get_saju_pillars` returns `None`, and then the whole
report pipeline (every effect of the page script: lookups, aggregation,
prompt assembly, notification, export, subscription) does not run. -/
theorem conversion_failure_halts (conv : Except Unit String) (h_str : String)
    (hf : conv = .error () ∨ ∀ s, conv = .ok s → (pySplit s).length < 3) :
    get_saju_pillars conv h_str = none ∧
    ∀ gen name tel rep sub,
      mainEffects (get_saju_pillars conv h_str) gen name tel rep sub = [] := by
  have hn : get_saju_pillars conv h_str = none := by
    rcases hf with h | h
    · subst h; rfl
    · cases conv with
      | error e => rfl
      | ok s =>
        have hl := h s rfl
        simp [get_saju_pillars, dif_neg (by omega : ¬ 3 ≤ (pySplit s).length)]
  exact ⟨hn, fun gen name tel rep sub => by rw [hn]; rfl⟩

/-- Witness for C4: a raising conversion yields no pillars and an empty
effect trace. -/
theorem conversion_failure_halts_witness :
    get_saju_pillars (.error ()) "모름" = none ∧
    mainEffects (get_saju_pillars (.error ()) "모름") true "홍길동" "@u" "r" true = [] := by
  obtain ⟨h1, h2⟩ := conversion_failure_halts (.error ()) "모름" (Or.inl rfl)
  exact ⟨h1, h2 true "홍길동" "@u" "r" true⟩

/-- Claim C5: a missing reference file yields the corresponding empty table,
and every downstream lookup against an empty table returns its "not found"
default (empty record, literal fallback, or empty annual-fortune text)
instead of raising. -/
theorem missing_file_empty_table (fs : FileSystem) (dbs : Dbs) (name : String) (y m d : Int) :
    (fs.ilju_present = false → (load_all_databases fs).ilju = []) ∧
    (fs.tojeong_present = false → (load_all_databases fs).tojeong = []) ∧
    (fs.sipsin_present = false → (load_all_databases fs).sipsin = []) ∧
    (fs.gyeok_present = false → (load_all_databases fs).gyeok = []) ∧
    (fs.unseong_present = false → (load_all_databases fs).unseong = []) ∧
    (dbs.ilju = [] → (get_json_info dbs name).ilju_basic = []) ∧
    (dbs.sipsin = [] → (get_json_info dbs name).sipsin_info = []) ∧
    (dbs.unseong = [] → (get_json_info dbs name).unseong_info = []) ∧
    (dbs.gyeok = [] → (get_json_info dbs name).gyeok_info = GVal.str "자수성가형 명조") ∧
    (dbs.tojeong = [] → tojeongText dbs.tojeong y m d = some "") := by
  refine ⟨fun h => by simp [load_all_databases, h],
          fun h => by simp [load_all_databases, h],
          fun h => by simp [load_all_databases, h],
          fun h => by simp [load_all_databases, h],
          fun h => by simp [load_all_databases, h],
          fun h => by simp [get_json_info, h],
          fun h => by simp [get_json_info, h],
          fun h => by simp [get_json_info, h],
          fun h => by simp [get_json_info, h],
          fun h => by rw [h]; rfl⟩

/-- Witness for C5: with every file absent, the loader yields five empty
tables and all downstream lookups return their defaults. -/
theorem missing_file_empty_table_witness :
    (load_all_databases ⟨false, [], false, [], false, [], false, [], false, []⟩).ilju = [] ∧
    (get_json_info ⟨[], [], [], [], []⟩ "무술").sipsin_info = [] ∧
    (get_json_info ⟨[], [], [], [], []⟩ "무술").gyeok_info = GVal.str "자수성가형 명조" ∧
    tojeongText ([] : List (String × PyObj)) 1976 4 16 = some "" := by
  obtain ⟨p1, -, -, -, -, -, p7, -, p9, p10⟩ :=
    missing_file_empty_table ⟨false, [], false, [], false, [], false, [], false, []⟩
      ⟨[], [], [], [], []⟩ "무술" 1976 4 16
  exact ⟨p1 rfl, p7 rfl, p9 rfl, p10 rfl⟩

/-- Counterexample for C6: the annual-fortune lookup is not failure-free for
every table content — for birth date (2000, 4, 16) the composite key is
"531", and a table whose "531" entry lacks the `full_content` field makes
`src/app.py` line 152 raise a `KeyError` (modelled as `none`). -/
theorem annual_lookup_key_error :
    tojeongText [("531", [("weight", "3")])] 2000 4 16 = none := by decide

/-- Claim C6 (amended): whenever the composite key is absent from the
annual-fortune table, the lookup yields the empty string and the generation
branch still produces a complete prompt. -/
theorem annual_miss_defaults (db : List (String × PyObj)) (y m d : Int)
    (h : db.lookup (tid y m d) = none) :
    tojeongText db y m d = some "" ∧
    ∀ (dbs : Dbs), dbs.tojeong = db →
      ∀ u_name p user_ans, (generateReportBranch dbs u_name p y m d user_ans).isSome = true := by
  have ht : tojeongText db y m d = some "" := by
    unfold tojeongText
    rw [h]
    rfl
  refine ⟨ht, fun dbs hdb u_name p user_ans => ?_⟩
  simp [generateReportBranch, hdb, ht]

/-- Witness for C6: on the empty table the key is absent, the text is empty,
and a prompt is produced. -/
theorem annual_miss_defaults_witness :
    tojeongText ([] : List (String × PyObj)) 0 0 0 = some "" ∧
    (generateReportBranch ⟨[], [], [], [], []⟩ "홍" ⟨"a", "b", "c", "d"⟩ 0 0 0 []).isSome
      = true :=
  ⟨(annual_miss_defaults [] 0 0 0 rfl).1,
   (annual_miss_defaults [] 0 0 0 rfl).2 ⟨[], [], [], [], []⟩ rfl "홍" ⟨"a", "b", "c", "d"⟩ []⟩

/-- Claim C7: `ilju_basic` is the first entry, in the table's insertion
order, whose `ilju` text field contains the designation as a substring; when
no entry matches, it is the empty record. -/
theorem basicInfo_first_match (dbs : Dbs) (name : String) :
    (∀ pre v post,
        dbs.ilju.map Prod.snd = pre ++ v :: post →
        (∀ w ∈ pre, pyInStr name (pyGetStr w "ilju" "") = false) →
        pyInStr name (pyGetStr v "ilju" "") = true →
        (get_json_info dbs name).ilju_basic = v) ∧
    ((∀ w ∈ dbs.ilju.map Prod.snd, pyInStr name (pyGetStr w "ilju" "") = false) →
        (get_json_info dbs name).ilju_basic = []) := by
  constructor
  · intro pre v post heq hpre hv
    have hfind : (dbs.ilju.map Prod.snd).find?
        (fun w => pyInStr name (pyGetStr w "ilju" "")) = some v := by
      rw [heq]
      exact find_first_of_split _ v post pre hpre hv
    simp [get_json_info, hfind]
  · intro hall
    have hfind : (dbs.ilju.map Prod.snd).find?
        (fun w => pyInStr name (pyGetStr w "ilju" "")) = none :=
      List.find?_eq_none.mpr (fun x hx => by simp [hall x hx])
    simp [get_json_info, hfind]

/-- Witness for C7: a two-entry table whose first entry does not contain
"무술" and whose second does yields the second entry. -/
theorem basicInfo_first_match_witness :
    (get_json_info
        ⟨[("1", [("ilju", "갑자(甲子)")]), ("2", [("ilju", "무술(戊戌)")])], [], [], [], []⟩
        "무술").ilju_basic = [("ilju", "무술(戊戌)")] :=
  (basicInfo_first_match
      ⟨[("1", [("ilju", "갑자(甲子)")]), ("2", [("ilju", "무술(戊戌)")])], [], [], [], []⟩
      "무술").1
    [[("ilju", "갑자(甲子)")]] [("ilju", "무술(戊戌)")] [] rfl
    (by decide) (by decide)

/-- Claim C8: the structural-pattern lookup returns the table entry when the
bridge key is present and otherwise the literal fallback string
"자수성가형 명조", which is distinct from the bridge's structural-pattern
default key "건록격(建祿格)". -/
theorem gyeok_fallback (dbs : Dbs) (name : String) (v : GVal) :
    (dbs.gyeok.lookup (resolveBridge name).gyeok = some v →
      (get_json_info dbs name).gyeok_info = v) ∧
    (dbs.gyeok.lookup (resolveBridge name).gyeok = none →
      (get_json_info dbs name).gyeok_info = GVal.str "자수성가형 명조") ∧
    GVal.str "자수성가형 명조" ≠ GVal.str "건록격(建祿格)" ∧
    bridgeDefault.gyeok = "건록격(建祿格)" := by
  refine ⟨fun h => by simp [get_json_info, h],
          fun h => by simp [get_json_info, h],
          by decide, rfl⟩

/-- Witness for C8: a present key returns the entry; the empty table returns
the literal fallback. -/
theorem gyeok_fallback_witness :
    (get_json_info ⟨[], [], [], [("건록격(建祿格)", GVal.str "재물복")], []⟩ "갑자").gyeok_info
      = GVal.str "재물복" ∧
    (get_json_info ⟨[], [], [], [], []⟩ "갑자").gyeok_info = GVal.str "자수성가형 명조" :=
  ⟨(gyeok_fallback ⟨[], [], [], [("건록격(建祿格)", GVal.str "재물복")], []⟩ "갑자"
      (GVal.str "재물복")).1 (by decide),
   (gyeok_fallback ⟨[], [], [], [], []⟩ "갑자" (GVal.str "재물복")).2.1 rfl⟩

/-- Claim C9: with an empty name, the report-generation attempt takes the
warning path and the trace contains no table lookup, no annual-fortune
lookup, no outbound notification, no prompt assembly and no model call,
whatever the other inputs. -/
theorem empty_name_short_circuits (p : Pillars) (tel rep : String) (sub : Bool) :
    Effect.warning ∈ mainEffects (some p) true "" tel rep sub ∧
    Effect.tableLookup ∉ mainEffects (some p) true "" tel rep sub ∧
    Effect.annualLookup ∉ mainEffects (some p) true "" tel rep sub ∧
    Effect.notification ∉ mainEffects (some p) true "" tel rep sub ∧
    Effect.promptAssembly ∉ mainEffects (some p) true "" tel rep sub ∧
    Effect.modelCall ∉ mainEffects (some p) true "" tel rep sub := by
  cases sub <;> rcases eq_or_ne rep "" with h | h <;>
    simp [mainEffects, h]

/-- Claim C10: `sync_to_n8n` sets exactly the keys "action" and "timestamp"
in the caller's payload (every other key's value is unchanged), posts that
mutated payload, and always returns normally whatever the HTTP outcome. -/
theorem sync_frame (a now : String) (payload : List (String × String))
    (post1 post2 : List (String × String) → Except Unit Unit) (k : String)
    (h1 : k ≠ "action") (h2 : k ≠ "timestamp") :
    (sync_to_n8n a now payload post1).payload.lookup "action" = some a ∧
    (sync_to_n8n a now payload post1).payload.lookup "timestamp" = some now ∧
    (sync_to_n8n a now payload post1).payload.lookup k = payload.lookup k ∧
    (sync_to_n8n a now payload post1).posted = (sync_to_n8n a now payload post1).payload ∧
    (sync_to_n8n a now payload post1).returnedNormally = true ∧
    sync_to_n8n a now payload post1 = sync_to_n8n a now payload post2 := by
  have hs : ∀ post : List (String × String) → Except Unit Unit,
      sync_to_n8n a now payload post =
        ⟨dictSet (dictSet payload "action" a) "timestamp" now,
         dictSet (dictSet payload "action" a) "timestamp" now, true⟩ := by
    intro post
    cases hp : post (dictSet (dictSet payload "action" a) "timestamp" now) <;>
      simp [sync_to_n8n, hp]
  rw [hs post1, hs post2]
  refine ⟨?_, lookup_dictSet_self _ _ _, ?_, rfl, rfl, rfl⟩
  · rw [lookup_dictSet_ne _ _ _ _ (by decide)]
    exact lookup_dictSet_self _ _ _
  · rw [lookup_dictSet_ne _ _ _ _ h2, lookup_dictSet_ne _ _ _ _ h1]

/-- Witness for C10: a payload with a "name" key and a stale "action" key is
updated in place ("action" overwritten, "timestamp" appended) and "name"
survives, whatever the HTTP outcome. -/
theorem sync_frame_witness :
    (sync_to_n8n "save_user" "2026-10-12 00:00:00" [("name", "홍"), ("action", "old")]
        (fun _ => .error ())).payload.lookup "name" = some "홍" ∧
    (sync_to_n8n "save_user" "2026-10-12 00:00:00" [("name", "홍"), ("action", "old")]
        (fun _ => .error ())).payload.lookup "action" = some "save_user" :=
  ⟨(sync_frame "save_user" "2026-10-12 00:00:00" [("name", "홍"), ("action", "old")]
      (fun _ => .error ()) (fun _ => .ok ()) "name" (by decide) (by decide)).2.2.1,
   (sync_frame "save_user" "2026-10-12 00:00:00" [("name", "홍"), ("action", "old")]
      (fun _ => .error ()) (fun _ => .ok ()) "name" (by decide) (by decide)).1⟩
